import Mathlib

/-!
Shallow embedding of the migratorx orchestration engine (Go) in Lean 4,
together with theorems settling the frozen claims about it.

Conventions of the embedding:
* Go's three identical `Severity`/`Finding`/`Summary` declarations (packages
  `workflow`, `checks`, `mysql`) are embedded once and shared.
* `map[string]interface{}` values are embedded as association lists over a
  small dynamic-value type `GoVal`; lookup finds the first matching key and
  `Set` prepends, which realises Go map update semantics for `Get`.
* Fallible Go calls (`error` results) are embedded as `Option String` /
  `Except String` values; an inspector or action collaborator is a pure
  function of its argument, and the orchestrator counts invocations in an
  explicit `CallLog` where the Go code performs the call.
* `context.Context` cancellation is a boolean observed at each step boundary,
  log output that the claims observe ("running step"/"running preflight
  check") is an explicit trace of names, and `time` instants/durations are
  integers (nanoseconds), with `time.Since t = now - t`.
-/

namespace Migratorx

/-- Severity of a finding: `Info < Warn < Block` (Go `Severity` iota enum). -/
inductive Severity where
  | info
  | warn
  | block
deriving DecidableEq, Repr

/-- Dynamic Go value (`interface{}`) as stored in metadata and state maps. -/
inductive GoVal where
  | bool (b : Bool)
  | str (s : String)
  | int (n : Int)
  | strList (l : List String)
deriving DecidableEq, Repr

/-- Metadata map `map[string]interface{}`, embedded as an association list. -/
abbrev Meta := List (String × GoVal)

/-- A single observed result (Go `Finding` in all three packages). -/
structure Finding where
  severity : Severity
  message : String
  meta : Meta
deriving DecidableEq, Repr

/-- Aggregated counts of findings by severity (Go `Summary`). -/
structure Summary where
  info : Nat
  warn : Nat
  block : Nat
deriving DecidableEq, Repr

/-- The zero summary `Summary{}`. -/
def Summary.zero : Summary := ⟨0, 0, 0⟩

/-- Go `applySummary` (identical in `checks` and `mysql`; the `workflow`
Runner inlines the same per-finding switch): add each finding's severity
to the running counts. -/
def applySummary (s : Summary) (findings : List Finding) : Summary :=
  findings.foldl
    (fun acc f =>
      match f.severity with
      | .info => { acc with info := acc.info + 1 }
      | .warn => { acc with warn := acc.warn + 1 }
      | .block => { acc with block := acc.block + 1 })
    s

/-- Go `countSeverity` (workflow) / severity filter: number of findings with
the given severity. -/
def countSeverity (findings : List Finding) (sv : Severity) : Nat :=
  (findings.filter (fun f => f.severity = sv)).length

/-- Go `hasBlock` (mysql): whether any finding is Block severity. -/
def hasBlock (findings : List Finding) : Bool :=
  findings.any (fun f => f.severity = .block)

/-- Go `strings.TrimSpace(s) == ""`: the message is blank (all whitespace). -/
def isBlank (s : String) : Bool :=
  s.data.all (fun c => c.isWhitespace)

/-- Go `strings.TrimSpace`: drop leading and trailing whitespace. -/
def goTrimSpace (s : String) : String :=
  ⟨((s.data.dropWhile (fun c => c.isWhitespace)).reverse.dropWhile
      (fun c => c.isWhitespace)).reverse⟩

/-! ### Checkpoint state implementations

Go `workflow.MemoryState` keeps user values and completion markers in two
separate maps; Go `state.FileState` keeps both in a single JSON map keyed by
`completedKey`.  The file persistence of `FileState` (`load`/`persist`) is
I/O and is elided; only the in-memory map contract is embedded. -/

/-- Go `workflow.MemoryState`: separate `values` map and `completed` set. -/
structure MemoryState where
  values : List (String × GoVal)
  completed : List String
deriving DecidableEq, Repr

/-- `workflow.NewMemoryState()`: empty maps. -/
def MemoryState.new : MemoryState := ⟨[], []⟩

/-- `MemoryState.Get`: map lookup, returning `(value, ok)` as an `Option`. -/
def MemoryState.get (m : MemoryState) (key : String) : Option GoVal :=
  (m.values.find? (fun p => p.1 = key)).map (·.2)

/-- `MemoryState.Set`: map insert (prepend; `get` finds the newest entry). -/
def MemoryState.set (m : MemoryState) (key : String) (v : GoVal) : MemoryState :=
  { m with values := (key, v) :: m.values }

/-- `MemoryState.MarkCompleted`: add the step name to the completed set. -/
def MemoryState.markCompleted (m : MemoryState) (stepName : String) : MemoryState :=
  { m with completed := stepName :: m.completed }

/-- `MemoryState.IsCompleted`: membership in the completed set. -/
def MemoryState.isCompleted (m : MemoryState) (stepName : String) : Bool :=
  m.completed.contains stepName

/-- Go `state.completedKey`: `fmt.Sprintf("workflow:%s:completed", step)`. -/
def completedKey (step : String) : String :=
  "workflow:" ++ step ++ ":completed"

/-- Go `state.FileState`: one shared map for values and completion markers. -/
structure FileState where
  data : List (String × GoVal)
deriving DecidableEq, Repr

/-- `FileState.Get`. -/
def FileState.get (s : FileState) (key : String) : Option GoVal :=
  (s.data.find? (fun p => p.1 = key)).map (·.2)

/-- `FileState.Set` (synchronous persistence elided). -/
def FileState.set (s : FileState) (key : String) (v : GoVal) : FileState :=
  ⟨(key, v) :: s.data⟩

/-- `FileState.MarkCompleted`: stores `true` under `completedKey stepName`
in the same map as user values. -/
def FileState.markCompleted (s : FileState) (stepName : String) : FileState :=
  ⟨(completedKey stepName, GoVal.bool true) :: s.data⟩

/-- `FileState.IsCompleted`: looks up `completedKey stepName` and requires the
stored value to be the boolean `true` (`v.(bool)` assertion, `ok && b`). -/
def FileState.isCompleted (s : FileState) (stepName : String) : Bool :=
  match s.get (completedKey stepName) with
  | some (GoVal.bool b) => b
  | some _ => false
  | none => false

/-! ### Workflow Runner (Go package `workflow`)

A `Step.run` receives the checkpoint state and returns `(StepResult, error)`;
it may also mutate the state through the `State` interface, so the embedded
`run` returns the updated state alongside.  The Runner is embedded against
the concrete `MemoryState` (the `State` implementation the package ships and
its tests use). -/

/-- Go `workflow.StepResult`. -/
structure StepResult where
  findings : List Finding
deriving DecidableEq, Repr

/-- Go `workflow.Step` interface: name, body, idempotency and mutation flags. -/
structure WStep where
  name : String
  idempotent : Bool
  mutates : Bool
  run : MemoryState → StepResult × MemoryState × Option String

/-- Outcome of `Runner.Run`: the returned `(Summary, error)`, plus the
observable side effects: the `results` map (as an ordered list of
`name → StepResult` entries), the final checkpoint state, and the trace of
steps actually executed (the Runner's "running step: %s" log lines). -/
structure RunOutcome where
  summary : Summary
  results : List (String × StepResult)
  state : MemoryState
  err : Option String
  executed : List String

/-- The Block finding the Runner synthesizes for a mutating step when
`AllowMutations` is false. -/
def mutationBlockedFinding (stepName : String) : Finding :=
  ⟨.block, "mutating step blocked by Runner configuration", [("step", .str stepName)]⟩

/-- The Block finding the Runner synthesizes from a step execution error
(`"step error: %v"`). -/
def stepErrorFinding (stepName : String) (e : String) : Finding :=
  ⟨.block, "step error: " ++ e, [("step", .str stepName)]⟩

/-- The findings recorded for an executed step: the step's own findings,
plus the synthesized Block when the step returned an error (Go appends the
error finding to `res.Findings`, never discarding the step's findings). -/
def recordedFindings (stepName : String) (r : StepResult) (err : Option String) :
    List Finding :=
  match err with
  | some e => r.findings ++ [stepErrorFinding stepName e]
  | none => r.findings

/-- The per-step loop of Go `workflow.Runner.Run` (lines after idempotency
validation).  `canceled` embeds `ctx.Done()` observed at each step boundary;
`summary`, `results` and `executed` are the accumulators. -/
def runSteps (allowMutations canceled : Bool) :
    List WStep → MemoryState → Summary → List (String × StepResult) →
    List String → RunOutcome
  | [], st, summary, results, executed => ⟨summary, results, st, none, executed⟩
  | step :: rest, st, summary, results, executed =>
    if canceled then
      ⟨summary, results, st, some "context canceled", executed⟩
    else if st.isCompleted step.name then
      runSteps allowMutations canceled rest st summary results executed
    else if step.mutates && !allowMutations then
      ⟨{ summary with block := summary.block + 1 },
        results ++ [(step.name, ⟨[mutationBlockedFinding step.name]⟩)],
        st, none, executed⟩
    else
      let out := step.run st
      let fs := recordedFindings step.name out.1 out.2.2
      let summary' := applySummary summary fs
      let results' := results ++ [(step.name, ⟨fs⟩)]
      let executed' := executed ++ [step.name]
      if hasBlock fs then
        ⟨summary', results', out.2.1, none, executed'⟩
      else
        runSteps allowMutations canceled rest (out.2.1.markCompleted step.name)
          summary' results' executed'

/-- The idempotency validation loop at the top of `Runner.Run`: the error for
the first step reporting `Idempotent() == false`, if any. -/
def validateIdempotent : List WStep → Option String
  | [] => none
  | step :: rest =>
    if step.idempotent then validateIdempotent rest
    else some ("step \"" ++ step.name ++
      "\" is not idempotent; all steps must be idempotent")

/-- Go `workflow.Runner.Run`: validate idempotency, then execute the steps
sequentially from an empty results map. -/
def runnerRun (steps : List WStep) (allowMutations canceled : Bool)
    (st : MemoryState) : RunOutcome :=
  match validateIdempotent steps with
  | some e => ⟨Summary.zero, [], st, some e, []⟩
  | none => runSteps allowMutations canceled steps st Summary.zero [] []

/-! ### Replica Upgrade Orchestrator (Go package `mysql`)

The inspector and actions collaborators are pure functions of the target
host; a `none` collaborator embeds a Go `nil` interface.  The orchestrator
increments an explicit `CallLog` exactly where the Go code performs the
corresponding interface call. -/

/-- Go `mysql.ReplicationStatus`. -/
structure ReplicationStatus where
  ioThreadRunning : Bool
  sqlThreadRunning : Bool
deriving DecidableEq, Repr

/-- Go `mysql.ReplicaInspector` (pure behavior of the collaborator). -/
structure ReplicaInspector where
  isPrimary : String → Except String Bool
  replicationStatus : String → Except String ReplicationStatus

/-- Go `mysql.ReplicaActions` (each action returns success or an error). -/
structure ReplicaActions where
  stopReplication : String → Option String
  runUpgrade : String → Option String
  startReplication : String → Option String

/-- Count of interface invocations performed by the orchestrator. -/
structure CallLog where
  isPrimaryCalls : Nat
  statusCalls : Nat
  stopCalls : Nat
  upgradeCalls : Nat
  startCalls : Nat
deriving DecidableEq, Repr

/-- The empty call log. -/
def CallLog.zero : CallLog := ⟨0, 0, 0, 0, 0⟩

/-- Go `mysql.stoppedKey`. -/
def stoppedKey (replica : String) : String :=
  "replica_upgrade:" ++ replica ++ ":stopped"

/-- Go `mysql.upgradedKey`. -/
def upgradedKey (replica : String) : String :=
  "replica_upgrade:" ++ replica ++ ":upgraded"

/-- Go `mysql.resumedKey`. -/
def resumedKey (replica : String) : String :=
  "replica_upgrade:" ++ replica ++ ":resumed"

/-- Go `mysql.getBool`: `state.Get(key)` followed by a `bool` type assertion,
returning `(b, ok)`. -/
def getBool (st : MemoryState) (key : String) : Bool × Bool :=
  match st.get key with
  | none => (false, false)
  | some (GoVal.bool b) => (b, true)
  | some _ => (false, false)

/-- Go `mysql.setBool`. -/
def setBool (st : MemoryState) (key : String) (value : Bool) : MemoryState :=
  st.set key (GoVal.bool value)

/-- Go `mysql.detectPartialProgress`: compare live replication thread status
against the recorded stop/resume checkpoints; each divergence is a Warn. -/
def detectPartialProgress (replica : String) (status : ReplicationStatus)
    (st : MemoryState) : List Finding :=
  let stopped := (getBool st (stoppedKey replica)).1
  let resumed := (getBool st (resumedKey replica)).1
  let threadsRunning := status.ioThreadRunning && status.sqlThreadRunning
  let threadsStopped := !status.ioThreadRunning && !status.sqlThreadRunning
  (if threadsStopped && !stopped then
    [⟨.warn, "replication appears stopped but checkpoint is missing",
      [("replica", .str replica)]⟩]
  else []) ++
  (if threadsRunning && stopped && !resumed then
    [⟨.warn, "checkpoint indicates replication stopped but status is running",
      [("replica", .str replica)]⟩]
  else []) ++
  (if threadsStopped && resumed then
    [⟨.warn, "checkpoint indicates replication started but status is stopped",
      [("replica", .str replica)]⟩]
  else [])

/-- Outcome of `UpgradeOrchestrator.Run`: the returned
`(Summary, []Finding, error)` plus the final state and the call log. -/
structure OrchOutcome where
  summary : Summary
  findings : List Finding
  state : MemoryState
  log : CallLog
  err : Option String
deriving Repr

/-- Go `mysql.appendBlock`: append a Block finding with the given message and
bump the summary. -/
def appendBlock (summary : Summary) (findings : List Finding) (message : String) :
    Summary × List Finding :=
  let block : Finding := ⟨.block, message, []⟩
  (applySummary summary [block], findings ++ [block])

/-- One checkpointed phase of the orchestrator (the stop/upgrade/start blocks
of `UpgradeOrchestrator.Run` are three copies of this shape): skip if the
checkpoint boolean is already `true`, otherwise perform the action, and on
success set the checkpoint.  Returns `(summary, findings, state, halted)`. -/
def orchPhase (replica key : String) (action : Option String)
    (doneMsg skipMsg failPrefix : String)
    (summary : Summary) (findings : List Finding) (st : MemoryState) :
    Summary × List Finding × MemoryState × Bool :=
  if !(getBool st key).1 then
    match action with
    | some e =>
      let (summary', findings') := appendBlock summary findings (failPrefix ++ e)
      (summary', findings', st, true)
    | none =>
      let st' := setBool st key true
      let f : Finding := ⟨.info, doneMsg, [("replica", .str replica)]⟩
      (applySummary summary [f], findings ++ [f], st', false)
  else
    let f : Finding := ⟨.info, skipMsg, [("replica", .str replica)]⟩
    (applySummary summary [f], findings ++ [f], st, false)

/-- The body of Go `mysql.UpgradeOrchestrator.Run` after the initial
`replica = strings.TrimSpace(replica)`: primary guard, partial-progress
detection, then the three checkpointed phases.  `primary` is the
orchestrator's configured primary hostname. -/
def orchRunTrimmed (inspector : Option ReplicaInspector) (actions : Option ReplicaActions)
    (primary : String) (st : MemoryState) (log : CallLog) (replica : String) :
    OrchOutcome :=
  if replica = "" then
    ⟨⟨0, 0, 1⟩, [⟨.block, "replica is required", []⟩], st, log, none⟩
  else
    match inspector, actions with
    | none, _ => ⟨Summary.zero, [], st, log, some "inspector and actions are required"⟩
    | some _, none => ⟨Summary.zero, [], st, log, some "inspector and actions are required"⟩
    | some insp, some acts =>
      let log := { log with isPrimaryCalls := log.isPrimaryCalls + 1 }
      match insp.isPrimary replica with
      | .error e =>
        ⟨⟨0, 0, 1⟩,
          [⟨.block, "failed to determine primary status: " ++ e, []⟩], st, log, none⟩
      | .ok isPrim =>
        if isPrim || (primary ≠ "" && replica = primary) then
          ⟨⟨0, 0, 1⟩,
            [⟨.block, "refusing to upgrade primary", [("replica", .str replica)]⟩],
            st, log, none⟩
        else
          let log := { log with statusCalls := log.statusCalls + 1 }
          let (summary, findings) :=
            match insp.replicationStatus replica with
            | .error e =>
              let warn : Finding :=
                ⟨.warn, "unable to read replication status: " ++ e,
                  [("replica", .str replica)]⟩
              (applySummary Summary.zero [warn], [warn])
            | .ok status =>
              let fs := detectPartialProgress replica status st
              (applySummary Summary.zero fs, fs)
          if hasBlock findings then
            ⟨summary, findings, st, log, none⟩
          else
            let log := if !(getBool st (stoppedKey replica)).1 then
              { log with stopCalls := log.stopCalls + 1 } else log
            let (summary, findings, st, halted) :=
              orchPhase replica (stoppedKey replica) (acts.stopReplication replica)
                "replication stopped" "replication already stopped"
                "failed to stop replication: " summary findings st
            if halted then ⟨summary, findings, st, log, none⟩
            else
              let log := if !(getBool st (upgradedKey replica)).1 then
                { log with upgradeCalls := log.upgradeCalls + 1 } else log
              let (summary, findings, st, halted) :=
                orchPhase replica (upgradedKey replica) (acts.runUpgrade replica)
                  "upgrade completed" "upgrade already completed"
                  "upgrade failed: " summary findings st
              if halted then ⟨summary, findings, st, log, none⟩
              else
                let log := if !(getBool st (resumedKey replica)).1 then
                  { log with startCalls := log.startCalls + 1 } else log
                let (summary, findings, st, _) :=
                  orchPhase replica (resumedKey replica) (acts.startReplication replica)
                    "replication started" "replication already started"
                    "failed to start replication: " summary findings st
                ⟨summary, findings, st, log, none⟩

/-- Go `mysql.UpgradeOrchestrator.Run`: trim the target name, then run the
orchestration body. -/
def orchRun (inspector : Option ReplicaInspector) (actions : Option ReplicaActions)
    (primary : String) (st : MemoryState) (log : CallLog) (replica : String) :
    OrchOutcome :=
  orchRunTrimmed inspector actions primary st log (goTrimSpace replica)

/-! ### Migration plan model (Go package `workflow`, plan file) -/

/-- Go `workflow.Topology`. -/
structure Topology where
  primary : String
  replicas : List String
deriving DecidableEq, Repr

/-- Go `workflow.CDCConfig`. -/
structure CDCConfig where
  type : String
  connector : String
deriving DecidableEq, Repr

/-- Go `workflow.MigrationPlan`. -/
structure MigrationPlan where
  migration : String
  sourceVersion : String
  targetVersion : String
  topology : Topology
  cdc : CDCConfig
  steps : List String
deriving DecidableEq, Repr

/-! ### Schema Parity Engine (Go package `checks`, `schema_parity.go`) -/

/-- Go `checks.Column`. -/
structure Column where
  name : String
  type : String
  nullable : Bool
  default : Option String
  charset : String
  collation : String
deriving DecidableEq, Repr

/-- Go `checks.Table`. -/
structure Table where
  name : String
  columns : List Column
  primaryKey : List String
deriving DecidableEq, Repr

/-- Go `checks.Schema`. -/
structure Schema where
  tables : List Table
deriving DecidableEq, Repr

/-- Go `checks.equalStrings`: positional equality of string slices (this is
plain list equality). -/
def equalStrings (a b : List String) : Bool :=
  a = b

/-- Go `checks.equalDefaults`: pointer-aware equality of optional defaults. -/
def equalDefaults (a b : Option String) : Bool :=
  match a, b with
  | none, none => true
  | some x, some y => x = y
  | _, _ => false

/-- Go `%q` rendering of a string (escaping of special characters elided;
only quoting is modelled, which is all the properties depend on). -/
def quoted (s : String) : String :=
  "\"" ++ s ++ "\""

/-- Go `checks.comparePrimaryKey`: order-sensitive comparison of the two
primary-key column lists of one table. -/
def comparePrimaryKey (table : String) (primaryPK replicaPK : List String) :
    List Finding :=
  if primaryPK.length = 0 && replicaPK.length = 0 then []
  else if primaryPK.length = 0 && replicaPK.length > 0 then
    [⟨.warn, "table " ++ quoted table ++ " has primary key on replica but not on primary",
      [("table", .str table)]⟩]
  else if primaryPK.length > 0 && replicaPK.length = 0 then
    [⟨.block, "table " ++ quoted table ++ " missing primary key on replica",
      [("table", .str table)]⟩]
  else if !equalStrings primaryPK replicaPK then
    [⟨.block, "table " ++ quoted table ++ " primary key mismatch",
      [("table", .str table), ("primary_pk", .strList primaryPK),
       ("replica_pk", .strList replicaPK)]⟩]
  else []

/-- Go `checks.columnIndex`: index columns by name (later duplicates win, as
in a Go map built by iteration).  The association list keeps first-wins
lookup, so the reversed slice is stored. -/
def columnIndex (cols : List Column) : List (String × Column) :=
  cols.reverse.map (fun c => (c.name, c))

/-- Lookup in an association list (Go map read). -/
def assocFind (idx : List (String × Column)) (name : String) : Option Column :=
  (idx.find? (fun p => p.1 = name)).map (·.2)

/-- The distinct keys of an association list in Go-map iteration order is
unspecified; the embedding iterates names in first-insertion order. -/
def assocKeys (idx : List (String × Column)) : List String :=
  (idx.reverse.map (·.1)).dedup

/-- Go `checks.compareColumns`: per-column structural comparison of one table
present in both snapshots.  Go iterates its maps in unspecified order; the
embedding fixes insertion order, which determines only the order (not the
content) of the findings list. -/
def compareColumns (table : String) (primaryCols replicaCols : List Column) :
    List Finding :=
  let primaryIndex := columnIndex primaryCols
  let replicaIndex := columnIndex replicaCols
  ((assocKeys primaryIndex).flatMap (fun name =>
    match assocFind primaryIndex name with
    | none => []
    | some pCol =>
      match assocFind replicaIndex name with
      | none =>
        [⟨.block, "table " ++ quoted table ++ " column " ++ quoted name ++ " missing on replica",
          [("table", .str table), ("column", .str name)]⟩]
      | some rCol =>
        (if pCol.type ≠ rCol.type then
          [⟨.block, "table " ++ quoted table ++ " column " ++ quoted name ++ " type mismatch",
            [("table", .str table), ("column", .str name),
             ("primary_type", .str pCol.type), ("replica_type", .str rCol.type)]⟩]
        else []) ++
        (if pCol.nullable ≠ rCol.nullable then
          [⟨.warn, "table " ++ quoted table ++ " column " ++ quoted name ++ " nullability differs",
            [("table", .str table), ("column", .str name),
             ("primary_nullable", .bool pCol.nullable), ("replica_nullable", .bool rCol.nullable)]⟩]
        else []) ++
        (if !equalDefaults pCol.default rCol.default then
          [⟨.warn, "table " ++ quoted table ++ " column " ++ quoted name ++ " default differs",
            [("table", .str table), ("column", .str name)]⟩]
        else []) ++
        (if pCol.collation ≠ rCol.collation then
          [⟨.warn, "table " ++ quoted table ++ " column " ++ quoted name ++ " collation differs",
            [("table", .str table), ("column", .str name),
             ("primary_collation", .str pCol.collation), ("replica_collation", .str rCol.collation)]⟩]
        else []))) ++
  ((assocKeys replicaIndex).flatMap (fun name =>
    match assocFind primaryIndex name with
    | some _ => []
    | none =>
      [⟨.warn, "table " ++ quoted table ++ " has extra column " ++ quoted name ++ " on replica",
        [("table", .str table), ("column", .str name)]⟩]))

/-- Go `checks.tableIndex` analog for tables. -/
def tableIndexOf (tables : List Table) : List (String × Table) :=
  tables.reverse.map (fun t => (t.name, t))

/-- Lookup in a table index. -/
def tableFind (idx : List (String × Table)) (name : String) : Option Table :=
  (idx.find? (fun p => p.1 = name)).map (·.2)

/-- Distinct table names in insertion order. -/
def tableKeys (idx : List (String × Table)) : List String :=
  (idx.reverse.map (·.1)).dedup

/-- Go `checks.compareSchemas`: tables missing on the replica are Block,
extra replica tables Warn, and tables in both are compared key/column-wise. -/
def compareSchemas (primary replica : Schema) : List Finding :=
  let primaryTables := tableIndexOf primary.tables
  let replicaTables := tableIndexOf replica.tables
  ((tableKeys primaryTables).flatMap (fun name =>
    match tableFind primaryTables name with
    | none => []
    | some pTable =>
      match tableFind replicaTables name with
      | none =>
        [⟨.block, "table " ++ quoted name ++ " missing on replica",
          [("table", .str name)]⟩]
      | some rTable =>
        comparePrimaryKey name pTable.primaryKey rTable.primaryKey ++
        compareColumns name pTable.columns rTable.columns)) ++
  ((tableKeys replicaTables).flatMap (fun name =>
    match tableFind primaryTables name with
    | some _ => []
    | none =>
      [⟨.warn, "extra table " ++ quoted name ++ " exists on replica",
        [("table", .str name)]⟩]))

/-- Go `checks.SchemaParityCheck`: configuration of the parity check.  The
`SchemaInspector` collaborator is a pure function; `none` embeds Go `nil`. -/
structure SchemaParityCheck where
  inspector : Option (String → Except String Schema)
  primaryHost : String
  replicaHost : String

/-- Go `checks.SchemaParityCheck.Run`: returns `([]Finding, error)` —
misconfiguration and transport errors are returned errors at the Check
level (the Checks Runner converts the latter into Block findings). -/
def schemaParityRun (c : SchemaParityCheck) : List Finding × Option String :=
  match c.inspector with
  | none => ([], some "schema inspector is required")
  | some inspect =>
    if c.primaryHost = "" || c.replicaHost = "" then
      ([], some "primary and replica hosts are required")
    else
      match inspect c.primaryHost with
      | .error e => ([], some ("failed to read primary schema: " ++ e))
      | .ok primary =>
        match inspect c.replicaHost with
        | .error e => ([], some ("failed to read replica schema: " ++ e))
        | .ok replica => (compareSchemas primary replica, none)

/-! ### Checks Runner (Go package `checks`, preflight runner) -/

/-- Go `checks.Input`: contextual data shared by all checks. -/
structure Input where
  plan : Option MigrationPlan
deriving Repr

/-- Go `checks.PreflightCheck` interface.  `run` returns `([]Finding, error)`;
the Runner uses the returned findings even when the error is non-nil. -/
structure PreflightCheck where
  name : String
  readOnly : Bool
  run : Input → List Finding × Option String

/-- Go `checks.Result`: findings of a single check. -/
structure CheckResult where
  checkName : String
  findings : List Finding
deriving DecidableEq, Repr

/-- Outcome of `checks.Runner.Run`: the returned `(Summary, []Result, error)`
plus the trace of checks actually executed (the Runner's
"running preflight check: %s" log lines). -/
structure ChecksOutcome where
  summary : Summary
  results : List CheckResult
  err : Option String
  executed : List String
deriving Repr

/-- The Block finding the Checks Runner synthesizes from a check error
(`"check error: %v"`). -/
def checkErrorFinding (checkName : String) (e : String) : Finding :=
  ⟨.block, "check error: " ++ e, [("check", .str checkName)]⟩

/-- Go `checks.enforceMessages`: any finding with a blank message is replaced
by a Block finding flagging the offending check. -/
def enforceMessages (checkName : String) (findings : List Finding) : List Finding :=
  findings.map (fun f =>
    if isBlank f.message then
      ⟨.block, "check " ++ quoted checkName ++ " emitted a finding without a message",
        [("check", .str checkName)]⟩
    else f)

/-- The findings the Checks Runner records for one executed check: the
check's findings, the error Block appended when the check errored, then
message enforcement. -/
def checkRecorded (c : PreflightCheck) (input : Input) : List Finding :=
  let out := c.run input
  let fs := match out.2 with
    | some e => out.1 ++ [checkErrorFinding c.name e]
    | none => out.1
  enforceMessages c.name fs

/-- The loop of Go `checks.Runner.Run`: each check must be read-only
(checked per check, at execution time); a violation aborts with a zero
Summary and nil results. -/
def runChecksAux (input : Input) :
    List PreflightCheck → Summary → List CheckResult → List String → ChecksOutcome
  | [], summary, results, executed => ⟨summary, results, none, executed⟩
  | c :: rest, summary, results, executed =>
    if !c.readOnly then
      ⟨Summary.zero, [],
        some ("preflight check " ++ quoted c.name ++ " is not read-only"), executed⟩
    else
      let fs := checkRecorded c input
      runChecksAux input rest (applySummary summary fs)
        (results ++ [⟨c.name, fs⟩]) (executed ++ [c.name])

/-- Go `checks.Runner.Run`. -/
def runChecks (checks : List PreflightCheck) (input : Input) : ChecksOutcome :=
  runChecksAux input checks Summary.zero [] []

/-- The Go `checks.SchemaParityCheck` as the `PreflightCheck` it implements:
`Name() = "schema_parity"`, `ReadOnly() = true`. -/
def schemaParityPreflight (c : SchemaParityCheck) : PreflightCheck :=
  ⟨"schema_parity", true, fun _ => schemaParityRun c⟩

/-! ### Debezium health check (Go package `cdc`) -/

/-- Go `cdc.TaskStatus`. -/
structure TaskStatus where
  id : Int
  state : String
  worker : String
  trace : String
deriving DecidableEq, Repr

/-- Go `cdc.ConnectorStatus`.  The optional last-restart instant is an
integer timestamp (nanoseconds). -/
structure ConnectorStatus where
  name : String
  connectorState : String
  connectorWorker : String
  tasks : List TaskStatus
  restartCount : Int
  lastRestartAt : Option Int
deriving DecidableEq, Repr

/-- One minute in the integer duration unit (nanoseconds, as Go
`time.Duration`). -/
def minuteNs : Int := 60 * 1000000000

/-- Go `cdc.isRestartLoop` evaluated at instant `now`
(`time.Since(t) = now - t`). -/
def isRestartLoop (now : Int) (status : ConnectorStatus) (window max : Int) : Bool :=
  match status.lastRestartAt with
  | none => false
  | some t =>
    if status.restartCount < max then false
    else now - t ≤ window

/-- Rendering of an integer duration (Go `time.Duration.String()`; the exact
Go format is not reproduced — no property depends on it). -/
def durationString (d : Int) : String :=
  toString d ++ "ns"

/-- The Block finding for a non-RUNNING connector state. -/
def connectorStateFinding (status : ConnectorStatus) : Finding :=
  ⟨.block,
    "connector " ++ quoted status.name ++ " is " ++ status.connectorState ++
      " (expected RUNNING)",
    [("connector", .str status.name), ("state", .str status.connectorState)]⟩

/-- The Block finding for a non-RUNNING task. -/
def taskStateFinding (status : ConnectorStatus) (task : TaskStatus) : Finding :=
  ⟨.block,
    "connector " ++ quoted status.name ++ " task " ++ toString task.id ++
      " is " ++ task.state,
    [("connector", .str status.name), ("task_id", .int task.id),
     ("state", .str task.state), ("trace", .str task.trace)]⟩

/-- The Block finding for a detected restart loop. -/
def restartLoopFinding (status : ConnectorStatus) (window : Int) : Finding :=
  ⟨.block,
    "connector " ++ quoted status.name ++ " appears to be in a restart loop (" ++
      toString status.restartCount ++ " restarts within " ++ durationString window ++ ")",
    [("connector", .str status.name), ("restart_count", .int status.restartCount),
     ("window", .str (durationString window))]⟩

/-- The Info finding emitted when no health condition fires. -/
def debeziumInfoFinding (status : ConnectorStatus) : Finding :=
  ⟨.info, "connector " ++ quoted status.name ++ " and tasks are RUNNING",
    [("connector", .str status.name)]⟩

/-- The findings `cdc.DebeziumHealthCheck.Run` derives from a successfully
read connector status, with the effective (post-default) window and max:
connector-state, per-task, and restart-loop findings are independent, and a
single Info is emitted when none fire. -/
def debeziumStatusFindings (now : Int) (status : ConnectorStatus)
    (window max : Int) : List Finding :=
  let fs :=
    (if status.connectorState ≠ "RUNNING" then [connectorStateFinding status] else []) ++
    status.tasks.filterMap (fun task =>
      if task.state ≠ "RUNNING" then some (taskStateFinding status task) else none) ++
    (if isRestartLoop now status window max then [restartLoopFinding status window] else [])
  if fs.isEmpty then [debeziumInfoFinding status] else fs

/-- Go `cdc.DebeziumHealthCheck` configuration.  The `DebeziumInspector`
collaborator is a pure function; `none` embeds Go `nil`. -/
structure DebeziumHealthCheck where
  inspector : Option (String → Except String ConnectorStatus)
  connector : String
  restartLoopWindow : Int
  restartLoopMax : Int

/-- The restart-loop window actually used by `Run`: a zero configured window
falls back to the default 10 minutes. -/
def effectiveWindow (c : DebeziumHealthCheck) : Int :=
  if c.restartLoopWindow = 0 then 10 * minuteNs else c.restartLoopWindow

/-- The restart-loop max actually used by `Run`: a zero configured max falls
back to the default 3. -/
def effectiveMax (c : DebeziumHealthCheck) : Int :=
  if c.restartLoopMax = 0 then 3 else c.restartLoopMax

/-- Go `cdc.DebeziumHealthCheck.Run` at instant `now`: nil/misconfiguration
is a returned error, a status read failure is a single Block finding, zero
window/max fall back to the defaults (10 minutes, 3). -/
def debeziumRun (c : DebeziumHealthCheck) (now : Int) : List Finding × Option String :=
  match c.inspector with
  | none => ([], some "debezium inspector is required")
  | some inspect =>
    if c.connector = "" then ([], some "connector name is required")
    else
      let window := effectiveWindow c
      let max := effectiveMax c
      match inspect c.connector with
      | .error e =>
        ([⟨.block, "failed to read Debezium connector status: " ++ e,
            [("connector", .str c.connector)]⟩], none)
      | .ok status => (debeziumStatusFindings now status window max, none)

/-! ### Promotion Gate (Go package `workflow`, `promotion.go`) -/

/-- Go `workflow.missingChecks`: required names not present among the
supplied checks, in required order. -/
def missingChecks (required : List String) (checksList : List PreflightCheck) :
    List String :=
  required.filter (fun name => !(checksList.any (fun c => c.name = name)))

/-- Go `workflow.flattenResults`: concatenate all result findings, tagging
each finding's metadata with its check name when absent. -/
def flattenResults (results : List CheckResult) : List Finding :=
  results.flatMap (fun r =>
    r.findings.map (fun f =>
      if (f.meta.find? (fun p => p.1 = "check")).isSome then f
      else { f with meta := f.meta ++ [("check", .str r.checkName)] }))

/-- Go `workflow.PromotionGate` configuration. -/
structure PromotionGate where
  checks : List PreflightCheck
  requiredCheckNames : List String
  confirmationPhrase : String

/-- The synthetic Block finding appended when revalidation is not strictly
clean. -/
def promotionBlockedFinding (warn block : Nat) : Finding :=
  ⟨.block,
    "promotion blocked due to WARN/BLOCK findings (WARN=" ++ toString warn ++
      ", BLOCK=" ++ toString block ++ ")",
    [("warn", .int warn), ("block", .int block)]⟩

/-- Go `workflow.PromotionGate.Run`: confirmation check, required-check
presence check, then full re-validation through the Checks Runner; any Warn
or Block in the revalidation appends one synthetic Block and increments the
Block count. -/
def promotionRun (g : PromotionGate) (input : Input) (confirmation : String) :
    Summary × List Finding × Option String :=
  if isBlank g.confirmationPhrase then
    (Summary.zero, [], some "confirmation phrase is required")
  else if confirmation ≠ g.confirmationPhrase then
    (⟨0, 0, 1⟩,
      [⟨.block, "promotion requires explicit confirmation",
        [("required", .str g.confirmationPhrase)]⟩], none)
  else
    let required := if g.requiredCheckNames.isEmpty then
      ["cdc_debezium_health", "schema_parity"] else g.requiredCheckNames
    let missing := missingChecks required g.checks
    if !missing.isEmpty then
      (⟨0, 0, 1⟩,
        [⟨.block, "promotion requires checks: " ++ String.intercalate ", " missing,
          [("missing", .strList missing)]⟩], none)
    else
      let out := runChecks g.checks input
      match out.err with
      | some e => (Summary.zero, [], some e)
      | none =>
        let findings := flattenResults out.results
        if out.summary.warn > 0 || out.summary.block > 0 then
          ({ out.summary with block := out.summary.block + 1 },
            findings ++ [promotionBlockedFinding out.summary.warn out.summary.block],
            none)
        else
          (out.summary, findings, none)

/-- The per-check results the Checks Runner produces when no read-only
violation aborts it (a derived characterization used in proofs). -/
def runnerResultsOf (checks : List PreflightCheck) (input : Input) : List CheckResult :=
  checks.map (fun c => ⟨c.name, checkRecorded c input⟩)

/-! ## Theorems -/

section Lemmas

/-- `applySummary` is componentwise addition of severity counts. -/
theorem applySummary_eq (s : Summary) (fs : List Finding) :
    applySummary s fs =
      ⟨s.info + countSeverity fs .info, s.warn + countSeverity fs .warn,
       s.block + countSeverity fs .block⟩ := by
  induction fs generalizing s with
  | nil => simp [applySummary, countSeverity]
  | cons f rest ih =>
    have hstep : applySummary s (f :: rest) = applySummary (applySummary s [f]) rest := rfl
    rw [hstep, ih]
    cases hf : f.severity <;> cases s <;>
      simp [applySummary, countSeverity, List.filter_cons, hf, Summary.mk.injEq] <;>
      omega

/-- If every finding is Info, the Block count contributed is zero. -/
theorem countSeverity_block_eq_zero_of_all_info {fs : List Finding}
    (h : ∀ f ∈ fs, f.severity = Severity.info) :
    countSeverity fs .block = 0 := by
  simp only [countSeverity, List.length_eq_zero, List.filter_eq_nil_iff]
  intro f hf
  simp [h f hf]

/-- If every finding is Info, the Warn count contributed is zero. -/
theorem countSeverity_warn_eq_zero_of_all_info {fs : List Finding}
    (h : ∀ f ∈ fs, f.severity = Severity.info) :
    countSeverity fs .warn = 0 := by
  simp only [countSeverity, List.length_eq_zero, List.filter_eq_nil_iff]
  intro f hf
  simp [h f hf]

end Lemmas

/-- C7: for a table present in both snapshots, the primary-key comparison
yields no finding when both lists are empty, one Warn when only the replica
has a primary key, one Block when only the primary has one, and one Block
when both are non-empty but differ (order-sensitively) at any position. -/
theorem comparePrimaryKey_cases (table : String) (primaryPK replicaPK : List String) :
    (primaryPK = [] → replicaPK = [] →
      comparePrimaryKey table primaryPK replicaPK = []) ∧
    (primaryPK = [] → replicaPK ≠ [] →
      comparePrimaryKey table primaryPK replicaPK =
        [⟨.warn, "table " ++ quoted table ++ " has primary key on replica but not on primary",
          [("table", .str table)]⟩]) ∧
    (primaryPK ≠ [] → replicaPK = [] →
      comparePrimaryKey table primaryPK replicaPK =
        [⟨.block, "table " ++ quoted table ++ " missing primary key on replica",
          [("table", .str table)]⟩]) ∧
    (primaryPK ≠ [] → replicaPK ≠ [] → primaryPK ≠ replicaPK →
      comparePrimaryKey table primaryPK replicaPK =
        [⟨.block, "table " ++ quoted table ++ " primary key mismatch",
          [("table", .str table), ("primary_pk", .strList primaryPK),
           ("replica_pk", .strList replicaPK)]⟩]) := by
  refine ⟨?_, ?_, ?_, ?_⟩
  · intro h1 h2
    subst h1; subst h2
    simp [comparePrimaryKey]
  · intro h1 h2
    subst h1
    simp [comparePrimaryKey, List.length_pos, h2]
  · intro h1 h2
    subst h2
    simp [comparePrimaryKey, List.length_eq_zero, List.length_pos, h1]
  · intro h1 h2 h3
    simp [comparePrimaryKey, equalStrings, List.length_eq_zero, List.length_pos,
      h1, h2, h3]

/-- Witness for C7 at a concrete input: primary table `t` has primary key
`[id]`, replica has none, producing the single Block finding. -/
theorem comparePrimaryKey_cases_witness :
    comparePrimaryKey "t" ["id"] [] =
      [⟨.block, "table " ++ quoted "t" ++ " missing primary key on replica",
        [("table", .str "t")]⟩] :=
  (comparePrimaryKey_cases "t" ["id"] []).2.2.1 (by decide) rfl

/-- C10: in the file-backed Checkpoint State, completion markers and user
values share one key namespace — `Set("workflow:"+s+":completed", true)`
makes `IsCompleted s` return true, and `MarkCompleted s` makes
`Get("workflow:"+s+":completed")` return the value `true`; the in-memory
State keeps values and completion markers in disjoint maps, so the same
`Set` leaves its `IsCompleted s` false. -/
theorem state_completion_namespace (fs : FileState) (ms : MemoryState) (s : String)
    (h : ms.isCompleted s = false) :
    ((fs.set ("workflow:" ++ s ++ ":completed") (GoVal.bool true)).isCompleted s = true) ∧
    ((fs.markCompleted s).get ("workflow:" ++ s ++ ":completed") = some (GoVal.bool true)) ∧
    ((ms.set ("workflow:" ++ s ++ ":completed") (GoVal.bool true)).isCompleted s = false) := by
  refine ⟨?_, ?_, ?_⟩
  · simp [FileState.set, FileState.isCompleted, FileState.get, completedKey, List.find?]
  · simp [FileState.markCompleted, FileState.get, completedKey, List.find?]
  · simpa [MemoryState.set, MemoryState.isCompleted] using h

/-- Witness for C10 at a concrete input: step `step1`, empty stores. -/
theorem state_completion_namespace_witness :
    ((FileState.mk []).set ("workflow:" ++ "step1" ++ ":completed") (GoVal.bool true)).isCompleted "step1" = true ∧
    ((FileState.mk []).markCompleted "step1").get ("workflow:" ++ "step1" ++ ":completed") = some (GoVal.bool true) ∧
    ((MemoryState.new).set ("workflow:" ++ "step1" ++ ":completed") (GoVal.bool true)).isCompleted "step1" = false :=
  state_completion_namespace (FileState.mk []) MemoryState.new "step1" (by decide)

/-- The idempotency validation fails when some step is non-idempotent. -/
theorem validateIdempotent_ne_none {steps : List WStep}
    (h : ∃ s ∈ steps, s.idempotent = false) : validateIdempotent steps ≠ none := by
  induction steps with
  | nil => simp at h
  | cons s rest ih =>
    obtain ⟨w, hw, hwi⟩ := h
    by_cases hs : s.idempotent
    · have : w ∈ rest := by
        rcases List.mem_cons.mp hw with h' | h'
        · subst h'; rw [hs] at hwi; cases hwi
        · exact h'
      simp only [validateIdempotent, hs, if_true]
      exact ih ⟨w, this, hwi⟩
    · simp [validateIdempotent, hs]

/-- C6: if any step reports `Idempotent() == false`, `Runner.Run` returns
a configuration error (not a Finding): the summary is zero, no step result
is recorded, no step's `Run` is invoked (`executed = []`), and the
checkpoint state is unchanged. -/
theorem runner_rejects_nonidempotent (steps : List WStep)
    (allowMutations canceled : Bool) (st : MemoryState)
    (h : ∃ s ∈ steps, s.idempotent = false) :
    ∃ e, runnerRun steps allowMutations canceled st =
      ⟨Summary.zero, [], st, some e, []⟩ := by
  obtain ⟨e, he⟩ := Option.ne_none_iff_exists'.mp (validateIdempotent_ne_none h)
  exact ⟨e, by simp [runnerRun, he]⟩

/-- Witness for C6 at a concrete input: one non-idempotent step. -/
theorem runner_rejects_nonidempotent_witness :
    ∃ e, runnerRun [⟨"bad", false, false, fun st => (⟨[]⟩, st, none)⟩] true false
        MemoryState.new =
      ⟨Summary.zero, [], MemoryState.new, some e, []⟩ :=
  runner_rejects_nonidempotent _ true false MemoryState.new
    ⟨⟨"bad", false, false, fun st => (⟨[]⟩, st, none)⟩, by simp, rfl⟩

/-- C1: for every accepted step list, at every executed step (not canceled,
not already completed, not blocked by the mutation gate) with recorded
findings `fs` (the step's own findings plus the Block synthesized from a
returned error): if `fs` contains a Block finding, the runner halts — the
outcome is independent of the remaining steps, the step is not marked
completed (the final state is exactly the state the step's own `Run`
produced), and no subsequent step is executed; if `fs` contains no Block,
the step is marked completed in the checkpoint state and execution continues
with the remaining steps. -/
theorem runner_block_halts_else_continues (allowMutations : Bool) (s : WStep)
    (rest : List WStep) (st : MemoryState) (summary : Summary)
    (results : List (String × StepResult)) (executed : List String)
    (hnc : st.isCompleted s.name = false)
    (hmut : (s.mutates && !allowMutations) = false)
    (r : StepResult) (st' : MemoryState) (errv : Option String)
    (hrun : s.run st = (r, st', errv)) :
    (hasBlock (recordedFindings s.name r errv) = true →
      runSteps allowMutations false (s :: rest) st summary results executed =
        ⟨applySummary summary (recordedFindings s.name r errv),
         results ++ [(s.name, ⟨recordedFindings s.name r errv⟩)],
         st', none, executed ++ [s.name]⟩) ∧
    (hasBlock (recordedFindings s.name r errv) = false →
      runSteps allowMutations false (s :: rest) st summary results executed =
        runSteps allowMutations false rest (st'.markCompleted s.name)
          (applySummary summary (recordedFindings s.name r errv))
          (results ++ [(s.name, ⟨recordedFindings s.name r errv⟩)])
          (executed ++ [s.name])) := by
  constructor
  · intro hb
    simp [runSteps, hnc, hmut, hrun, hb]
  · intro hb
    simp [runSteps, hnc, hmut, hrun, hb]

/-- Witness for C1 at a concrete input: a step that emits a Block finding
halts the runner without a completion mark, even with further steps
pending. -/
theorem runner_block_halts_else_continues_witness :
    runSteps true false
        [⟨"a", true, false, fun st => (⟨[⟨.block, "stop", []⟩]⟩, st, none)⟩,
         ⟨"b", true, false, fun st => (⟨[]⟩, st, none)⟩]
        MemoryState.new Summary.zero [] [] =
      ⟨applySummary Summary.zero
         (recordedFindings "a" ⟨[⟨.block, "stop", []⟩]⟩ none),
       [("a", ⟨recordedFindings "a" ⟨[⟨.block, "stop", []⟩]⟩ none⟩)],
       MemoryState.new, none, ["a"]⟩ :=
  (runner_block_halts_else_continues true
      ⟨"a", true, false, fun st => (⟨[⟨.block, "stop", []⟩]⟩, st, none)⟩
      [⟨"b", true, false, fun st => (⟨[]⟩, st, none)⟩]
      MemoryState.new Summary.zero [] [] rfl rfl
      ⟨[⟨.block, "stop", []⟩]⟩ MemoryState.new none rfl).1 rfl

/-- The Checks Runner loop aborts at the first non-read-only check with a
zero summary and nil results, having already executed every earlier check. -/
theorem runChecksAux_abort (input : Input) (pre : List PreflightCheck)
    (c : PreflightCheck) (post : List PreflightCheck)
    (hpre : ∀ p ∈ pre, p.readOnly = true) (hc : c.readOnly = false)
    (summary : Summary) (results : List CheckResult) (executed : List String) :
    runChecksAux input (pre ++ c :: post) summary results executed =
      ⟨Summary.zero, [],
       some ("preflight check " ++ quoted c.name ++ " is not read-only"),
       executed ++ pre.map (·.name)⟩ := by
  induction pre generalizing summary results executed with
  | nil => simp [runChecksAux, hc]
  | cons p pre' ih =>
    have hp : p.readOnly = true := hpre p (List.mem_cons_self p pre')
    have hpre' : ∀ q ∈ pre', q.readOnly = true := fun q hq =>
      hpre q (List.mem_cons_of_mem p hq)
    have hrec := ih hpre' (applySummary summary (checkRecorded p input))
      (results ++ [⟨p.name, checkRecorded p input⟩]) (executed ++ [p.name])
    simp only [List.cons_append, runChecksAux, hp, Bool.not_true, Bool.false_eq_true,
      if_false, List.append_eq]
    rw [hrec]
    simp

/-- C9: a check list containing a non-read-only check makes `Runner.Run`
return an error with a zero Summary and nil results — but each check before
the first non-read-only one has already been executed (the read-only
validation happens per check at execution time), and their findings are
discarded. -/
theorem checks_runner_readonly_per_check (input : Input)
    (pre : List PreflightCheck) (c : PreflightCheck) (post : List PreflightCheck)
    (hpre : ∀ p ∈ pre, p.readOnly = true) (hc : c.readOnly = false) :
    runChecks (pre ++ c :: post) input =
      ⟨Summary.zero, [],
       some ("preflight check " ++ quoted c.name ++ " is not read-only"),
       pre.map (·.name)⟩ := by
  have h := runChecksAux_abort input pre c post hpre hc Summary.zero [] []
  simpa [runChecks] using h

/-- Witness for C9 at a concrete input: a read-only check that emits a Warn
finding runs first, then a non-read-only check aborts the run, discarding
the earlier finding. -/
theorem checks_runner_readonly_per_check_witness :
    runChecks
        [⟨"early", true, fun _ => ([⟨.warn, "risk", []⟩], none)⟩,
         ⟨"mutating", false, fun _ => ([⟨.info, "should not run", []⟩], none)⟩]
        ⟨none⟩ =
      ⟨Summary.zero, [],
       some ("preflight check " ++ quoted "mutating" ++ " is not read-only"),
       ["early"]⟩ := by
  have h := checks_runner_readonly_per_check ⟨none⟩
    [⟨"early", true, fun _ => ([⟨.warn, "risk", []⟩], none)⟩]
    ⟨"mutating", false, fun _ => ([⟨.info, "should not run", []⟩], none)⟩ []
    (by intro p hp; simp at hp; subst hp; rfl) rfl
  simpa using h

/-- A string with a non-blank prefix is not blank. -/
theorem isBlank_append_false (p x : String) (h : isBlank p = false) :
    isBlank (p ++ x) = false := by
  simp only [isBlank, String.data_append, List.all_append] at h ⊢
  simp [h]

/-- C4: a transport error of the schema inspection interface during the
schema parity check is converted by the Checks Runner into a Block finding
in the invocation's Summary/Findings output, and is never propagated as a
returned error — for any inspector behavior, running the (read-only) parity
check through the Runner yields `err = none`; a replica-snapshot read
failure in particular yields exactly one Block finding tagged with the
check's name. -/
theorem schema_parity_transport_error_blocks (f : String → Except String Schema)
    (ph rh : String) (input : Input) :
    ((runChecks [schemaParityPreflight ⟨some f, ph, rh⟩] input).err = none) ∧
    (∀ (ps : Schema) (e : String), ph ≠ "" → rh ≠ "" →
      f ph = .ok ps → f rh = .error e →
      runChecks [schemaParityPreflight ⟨some f, ph, rh⟩] input =
        ⟨⟨0, 0, 1⟩,
         [⟨"schema_parity",
           [checkErrorFinding "schema_parity" ("failed to read replica schema: " ++ e)]⟩],
         none, ["schema_parity"]⟩) ∧
    ((schemaParityRun ⟨none, ph, rh⟩).2 = some "schema inspector is required") := by
  refine ⟨?_, ?_, rfl⟩
  · rfl
  · intro ps e hph hrh hfp hfr
    have hrec : checkRecorded (schemaParityPreflight ⟨some f, ph, rh⟩) input =
        [checkErrorFinding "schema_parity" ("failed to read replica schema: " ++ e)] := by
      have hblank : isBlank ("check error: " ++ ("failed to read replica schema: " ++ e)) = false :=
        isBlank_append_false "check error: " _ (by decide)
      simp [checkRecorded, schemaParityPreflight, schemaParityRun, hph, hrh, hfp, hfr,
        enforceMessages, checkErrorFinding, hblank]
    have hro : (schemaParityPreflight ⟨some f, ph, rh⟩).readOnly = true := rfl
    simp only [runChecks, runChecksAux, hro, Bool.not_true, Bool.false_eq_true,
      if_false, hrec]
    simp [checkErrorFinding, applySummary, Summary.zero, schemaParityPreflight]

/-- Witness for C4 at a concrete input: an inspector whose replica read
fails with a transport error. -/
theorem schema_parity_transport_error_blocks_witness :
    runChecks
        [schemaParityPreflight
          ⟨some (fun h => if h = "primary" then .ok ⟨[]⟩ else .error "timeout"),
           "primary", "replica"⟩] ⟨none⟩ =
      ⟨⟨0, 0, 1⟩,
       [⟨"schema_parity",
         [checkErrorFinding "schema_parity" ("failed to read replica schema: " ++ "timeout")]⟩],
       none, ["schema_parity"]⟩ :=
  (schema_parity_transport_error_blocks
      (fun h => if h = "primary" then .ok ⟨[]⟩ else .error "timeout")
      "primary" "replica" ⟨none⟩).2.1 ⟨[]⟩ "timeout"
    (by decide) (by decide) (by simp) (by simp)

/-- `applySummary` splits over list concatenation. -/
theorem applySummary_append (s : Summary) (a b : List Finding) :
    applySummary s (a ++ b) = applySummary (applySummary s a) b := by
  simp [applySummary, List.foldl_append]

/-- When every check is read-only, the Checks Runner never errors and its
summary, results and execution trace are the concatenation over the list. -/
theorem runChecksAux_all_readonly (input : Input) (cs : List PreflightCheck)
    (h : ∀ c ∈ cs, c.readOnly = true) (summary : Summary)
    (results : List CheckResult) (executed : List String) :
    runChecksAux input cs summary results executed =
      ⟨applySummary summary (cs.flatMap (fun c => checkRecorded c input)),
       results ++ runnerResultsOf cs input, none, executed ++ cs.map (·.name)⟩ := by
  induction cs generalizing summary results executed with
  | nil => simp [runChecksAux, applySummary, runnerResultsOf]
  | cons c rest ih =>
    have hc : c.readOnly = true := h c (List.mem_cons_self c rest)
    have hrest : ∀ q ∈ rest, q.readOnly = true := fun q hq =>
      h q (List.mem_cons_of_mem c hq)
    have hrec := ih hrest (applySummary summary (checkRecorded c input))
      (results ++ [⟨c.name, checkRecorded c input⟩]) (executed ++ [c.name])
    simp only [runChecksAux, hc, Bool.not_true, Bool.false_eq_true, if_false]
    rw [hrec]
    simp [runnerResultsOf, List.flatMap_cons, applySummary_append]

/-- C5: with a matching confirmation phrase and all required checks present,
the Promotion Gate (a) appends exactly one synthetic Block finding and
increments the Block count by one whenever the re-validation Summary has any
Warn or Block, and (b) returns a Summary with zero Block whenever every
finding of the re-validation is Info. -/
theorem promotion_gate_strictly_clean (g : PromotionGate) (input : Input)
    (confirmation : String)
    (hphrase : isBlank g.confirmationPhrase = false)
    (hconf : confirmation = g.confirmationPhrase)
    (hmissing : missingChecks
      (if g.requiredCheckNames.isEmpty then ["cdc_debezium_health", "schema_parity"]
       else g.requiredCheckNames) g.checks = [])
    (hro : ∀ c ∈ g.checks, c.readOnly = true) :
    (((runChecks g.checks input).summary.warn > 0 ∨
        (runChecks g.checks input).summary.block > 0) →
      promotionRun g input confirmation =
        ({ (runChecks g.checks input).summary with
            block := (runChecks g.checks input).summary.block + 1 },
         flattenResults (runChecks g.checks input).results ++
           [promotionBlockedFinding (runChecks g.checks input).summary.warn
              (runChecks g.checks input).summary.block],
         none)) ∧
    ((∀ r ∈ (runChecks g.checks input).results, ∀ f ∈ r.findings,
        f.severity = Severity.info) →
      (promotionRun g input confirmation).1.block = 0) := by
  have hout := runChecksAux_all_readonly input g.checks hro Summary.zero [] []
  have herr : (runChecks g.checks input).err = none := by
    rw [runChecks, hout]
  subst hconf
  constructor
  · intro hwb
    have hcond : ((runChecks g.checks input).summary.warn > 0 ||
        (runChecks g.checks input).summary.block > 0) = true := by
      rcases hwb with hw | hw <;> simp [hw]
    simp only [promotionRun, hphrase, Bool.false_eq_true, if_false, ne_eq,
      not_true_eq_false, hmissing, List.isEmpty_nil, Bool.not_true, herr, hcond,
      if_true]
  · intro hallinfo
    have hres : (runChecks g.checks input).results = runnerResultsOf g.checks input := by
      rw [runChecks, hout]
      simp
    have hsum : (runChecks g.checks input).summary =
        applySummary Summary.zero (g.checks.flatMap (fun c => checkRecorded c input)) := by
      rw [runChecks, hout]
    have hall : ∀ f ∈ g.checks.flatMap (fun c => checkRecorded c input),
        f.severity = Severity.info := by
      intro f hf
      rw [List.mem_flatMap] at hf
      obtain ⟨c, hcmem, hfc⟩ := hf
      refine hallinfo ⟨c.name, checkRecorded c input⟩ ?_ f hfc
      rw [hres]
      exact List.mem_map_of_mem _ hcmem
    have hwarn : (runChecks g.checks input).summary.warn = 0 := by
      rw [hsum, applySummary_eq]
      simp [Summary.zero, countSeverity_warn_eq_zero_of_all_info hall]
    have hblock : (runChecks g.checks input).summary.block = 0 := by
      rw [hsum, applySummary_eq]
      simp [Summary.zero, countSeverity_block_eq_zero_of_all_info hall]
    simp only [promotionRun, hphrase, Bool.false_eq_true, if_false, ne_eq,
      not_true_eq_false, hmissing, List.isEmpty_nil, Bool.not_true, herr,
      hwarn, hblock]
    simp [hblock]

/-- Witness for C5 at a concrete input: correct phrase, both default
required checks present and all findings Info, so the returned Summary has
zero Block. -/
theorem promotion_gate_strictly_clean_witness :
    (promotionRun
        ⟨[⟨"cdc_debezium_health", true, fun _ => ([⟨.info, "ok", []⟩], none)⟩,
          ⟨"schema_parity", true, fun _ => ([⟨.info, "ok", []⟩], none)⟩],
         [], "PROMOTE"⟩ ⟨none⟩ "PROMOTE").1.block = 0 :=
  (promotion_gate_strictly_clean
      ⟨[⟨"cdc_debezium_health", true, fun _ => ([⟨.info, "ok", []⟩], none)⟩,
        ⟨"schema_parity", true, fun _ => ([⟨.info, "ok", []⟩], none)⟩],
       [], "PROMOTE"⟩ ⟨none⟩ "PROMOTE" (by decide) rfl (by decide)
      (by simp)).2 (by decide)

/-- Left cancellation of string append. -/
theorem str_append_left_cancel {a x y : String} (h : a ++ x = a ++ y) : x = y := by
  have hd := congrArg String.data h
  rw [String.data_append, String.data_append] at hd
  exact String.ext (List.append_cancel_left hd)

/-- Two appends with length-≥3 heads that differ within their first three
characters are different strings. -/
theorem append_ne_of_take_three (l1 l2 r1 r2 : String)
    (h : l1.data.take 3 ≠ l2.data.take 3)
    (hl1 : 3 ≤ l1.data.length) (hl2 : 3 ≤ l2.data.length) :
    l1 ++ r1 ≠ l2 ++ r2 := by
  intro heq
  have ht := congrArg (fun s : String => s.data.take 3) heq
  simp only [String.data_append, List.take_append_eq_append_take,
    Nat.sub_eq_zero_of_le hl1, Nat.sub_eq_zero_of_le hl2,
    List.take_zero, List.append_nil] at ht
  exact h ht

/-- An append with a length-≥3 head differing from a plain string within the
first three characters is a different string. -/
theorem append_ne_of_take_three' (l1 r1 y : String)
    (h : l1.data.take 3 ≠ y.data.take 3) (hl1 : 3 ≤ l1.data.length) :
    l1 ++ r1 ≠ y := by
  intro heq
  have ht := congrArg (fun s : String => s.data.take 3) heq
  simp only [String.data_append, List.take_append_eq_append_take,
    Nat.sub_eq_zero_of_le hl1, List.take_zero, List.append_nil] at ht
  exact h ht

/-- The restart-loop finding differs from the connector-state finding. -/
theorem restart_ne_connState (status : ConnectorStatus) (w : Int) :
    restartLoopFinding status w ≠ connectorStateFinding status := by
  intro h
  have hm := congrArg Finding.message h
  simp only [restartLoopFinding, connectorStateFinding, quoted,
    String.append_assoc] at hm
  have h1 := str_append_left_cancel hm
  have h2 := str_append_left_cancel h1
  have h3 := str_append_left_cancel h2
  have h4 := str_append_left_cancel h3
  exact append_ne_of_take_three _ _ _ _ (by decide) (by decide) (by decide) h4

/-- The restart-loop finding differs from every task-state finding. -/
theorem restart_ne_task (status : ConnectorStatus) (w : Int) (task : TaskStatus) :
    restartLoopFinding status w ≠ taskStateFinding status task := by
  intro h
  have hm := congrArg Finding.message h
  simp only [restartLoopFinding, taskStateFinding, quoted,
    String.append_assoc] at hm
  have h1 := str_append_left_cancel hm
  have h2 := str_append_left_cancel h1
  have h3 := str_append_left_cancel h2
  have h4 := str_append_left_cancel h3
  exact append_ne_of_take_three _ _ _ _ (by decide) (by decide) (by decide) h4

/-- The restart-loop finding differs from the all-clear Info finding. -/
theorem restart_ne_info (status : ConnectorStatus) (w : Int) :
    restartLoopFinding status w ≠ debeziumInfoFinding status := by
  intro h
  have hm := congrArg Finding.message h
  simp only [restartLoopFinding, debeziumInfoFinding, quoted,
    String.append_assoc] at hm
  have h1 := str_append_left_cancel hm
  have h2 := str_append_left_cancel h1
  have h3 := str_append_left_cancel h2
  have h4 := str_append_left_cancel h3
  exact append_ne_of_take_three' _ _ _ (by decide) (by decide) h4

/-- `isRestartLoop` holds exactly when the restart count reached the max, a
last-restart instant exists, and it lies within the window of `now`. -/
theorem isRestartLoop_iff (now : Int) (status : ConnectorStatus) (window max : Int) :
    isRestartLoop now status window max = true ↔
      ∃ t, status.lastRestartAt = some t ∧ max ≤ status.restartCount ∧
        now - t ≤ window := by
  cases h : status.lastRestartAt with
  | none => simp [isRestartLoop, h]
  | some t =>
    by_cases hm : status.restartCount < max <;> simp [isRestartLoop, h, hm]
    omega

/-- C8: on a successfully read connector status, the Debezium health check
emits the restart-loop Block finding iff `restart_count ≥` the configured
max (default 3), a last-restart timestamp exists, and `now − last_restart ≤`
the configured window (default 10 minutes); and when neither that condition
nor the connector-state nor any task-state condition fires, it returns
exactly one Info finding. -/
theorem debezium_restart_loop_iff (c : DebeziumHealthCheck)
    (f : String → Except String ConnectorStatus) (status : ConnectorStatus)
    (now : Int) (hi : c.inspector = some f) (hc : c.connector ≠ "")
    (hst : f c.connector = .ok status) :
    ((restartLoopFinding status (effectiveWindow c) ∈ (debeziumRun c now).1) ↔
      (∃ t, status.lastRestartAt = some t ∧
        effectiveMax c ≤ status.restartCount ∧
        now - t ≤ effectiveWindow c)) ∧
    (status.connectorState = "RUNNING" →
      (∀ task ∈ status.tasks, task.state = "RUNNING") →
      ¬(∃ t, status.lastRestartAt = some t ∧
        effectiveMax c ≤ status.restartCount ∧
        now - t ≤ effectiveWindow c) →
      (debeziumRun c now).1 = [debeziumInfoFinding status]) := by
  have hrun : (debeziumRun c now).1 =
      debeziumStatusFindings now status (effectiveWindow c) (effectiveMax c) := by
    simp [debeziumRun, hi, hc, hst]
  constructor
  · rw [hrun]
    rw [← isRestartLoop_iff now status (effectiveWindow c) (effectiveMax c)]
    constructor
    · intro hmem
      by_contra hloop
      rw [Bool.not_eq_true] at hloop
      unfold debeziumStatusFindings at hmem
      rw [hloop] at hmem
      simp only [Bool.false_eq_true, if_false, List.append_nil] at hmem
      by_cases hempty :
          ((if status.connectorState ≠ "RUNNING" then [connectorStateFinding status] else []) ++
            status.tasks.filterMap (fun task =>
              if task.state ≠ "RUNNING" then some (taskStateFinding status task)
              else none)).isEmpty
      · rw [if_pos hempty] at hmem
        rw [List.mem_singleton] at hmem
        exact restart_ne_info status (effectiveWindow c) hmem
      · rw [if_neg hempty] at hmem
        rw [List.mem_append] at hmem
        rcases hmem with hmem | hmem
        · by_cases hcs : status.connectorState ≠ "RUNNING"
          · rw [if_pos hcs, List.mem_singleton] at hmem
            exact restart_ne_connState status (effectiveWindow c) hmem
          · rw [if_neg hcs] at hmem
            exact absurd hmem (List.not_mem_nil _)
        · rw [List.mem_filterMap] at hmem
          obtain ⟨task, _, htask⟩ := hmem
          by_cases hts : task.state ≠ "RUNNING"
          · rw [if_pos hts, Option.some.injEq] at htask
            exact restart_ne_task status (effectiveWindow c) task htask.symm
          · rw [if_neg hts] at htask
            cases htask
    · intro hloop
      unfold debeziumStatusFindings
      rw [hloop]
      simp
  · intro hcs htasks hloop
    rw [hrun]
    have hloopb : isRestartLoop now status (effectiveWindow c) (effectiveMax c) = false := by
      rw [← Bool.not_eq_true, isRestartLoop_iff]
      exact hloop
    have htasksnil : status.tasks.filterMap (fun task =>
        if task.state ≠ "RUNNING" then some (taskStateFinding status task)
        else none) = [] := by
      rw [List.filterMap_eq_nil_iff]
      intro task ht
      exact if_neg (fun hne => hne (htasks task ht))
    have hcsnil : (if status.connectorState ≠ "RUNNING" then [connectorStateFinding status]
        else ([] : List Finding)) = [] := by
      simp [hcs]
    unfold debeziumStatusFindings
    rw [hloopb]
    simp only [Bool.false_eq_true, if_false, List.append_nil, htasksnil, hcsnil,
      List.nil_append]
    rfl

/-- Witness for C8 at a concrete input: connector and tasks RUNNING,
restart count 5 ≥ default max 3, last restart 2 minutes before `now`,
within the default 10-minute window — the restart-loop Block is emitted. -/
theorem debezium_restart_loop_iff_witness :
    restartLoopFinding
        ⟨"conn", "RUNNING", "w1", [], 5, some 0⟩
        (effectiveWindow ⟨some (fun _ => .ok ⟨"conn", "RUNNING", "w1", [], 5, some 0⟩), "conn", 0, 0⟩) ∈
      (debeziumRun ⟨some (fun _ => .ok ⟨"conn", "RUNNING", "w1", [], 5, some 0⟩), "conn", 0, 0⟩
        (2 * minuteNs)).1 :=
  ((debezium_restart_loop_iff
      ⟨some (fun _ => .ok ⟨"conn", "RUNNING", "w1", [], 5, some 0⟩), "conn", 0, 0⟩
      (fun _ => .ok ⟨"conn", "RUNNING", "w1", [], 5, some 0⟩)
      ⟨"conn", "RUNNING", "w1", [], 5, some 0⟩
      (2 * minuteNs) rfl (by decide) rfl).1).mpr
    ⟨0, rfl, by decide, by decide⟩

/-- Setting a key makes `getBool` find its boolean value. -/
theorem getBool_set_self (st : MemoryState) (k : String) (b : Bool) :
    getBool (st.set k (GoVal.bool b)) k = (b, true) := by
  simp [getBool, MemoryState.set, MemoryState.get, List.find?]

/-- Setting one key leaves `getBool` at another key unchanged. -/
theorem getBool_set_ne (st : MemoryState) (k' k : String) (v : GoVal)
    (h : k' ≠ k) : getBool (st.set k v) k' = getBool st k' := by
  simp only [getBool, MemoryState.set, MemoryState.get, List.find?]
  rw [show (decide (k = k')) = false by simp [Ne.symm h]]

/-- The three checkpoint keys of one replica are pairwise distinct. -/
theorem replicaKey_ne (r : String) {s1 s2 : String} (h : s1 ≠ s2) :
    ("replica_upgrade:" ++ r) ++ s1 ≠ ("replica_upgrade:" ++ r) ++ s2 :=
  fun heq => h (str_append_left_cancel heq)

/-- C3: a target that the inspector reports as primary, or that equals the
plan's configured (non-empty) primary hostname, makes the orchestrator
return exactly one finding, of Block severity, with an unchanged checkpoint
state and zero action calls (`stop`/`upgrade`/`start` counters unchanged)
and no inspector calls beyond the single primary check (`statusCalls`
unchanged). -/
theorem orchestrator_primary_guard (I : ReplicaInspector) (A : ReplicaActions)
    (primary : String) (st : MemoryState) (log : CallLog) (replica : String)
    (hne : goTrimSpace replica ≠ "")
    (b : Bool) (hip : I.isPrimary (goTrimSpace replica) = .ok b)
    (hguard : b = true ∨ (primary ≠ "" ∧ goTrimSpace replica = primary)) :
    orchRun (some I) (some A) primary st log replica =
      ⟨⟨0, 0, 1⟩,
       [⟨.block, "refusing to upgrade primary", [("replica", .str (goTrimSpace replica))]⟩],
       st, { log with isPrimaryCalls := log.isPrimaryCalls + 1 }, none⟩ := by
  rcases hguard with hb | ⟨h1, h2⟩
  · subst hb
    simp [orchRun, orchRunTrimmed, hne, hip]
  · rw [h2] at hip
    simp [orchRun, orchRunTrimmed, hne, hip, h1, h2]

/-- Witness for C3 at a concrete input: the inspector reports the target as
primary; the orchestrator performs no status read and no action calls. -/
theorem orchestrator_primary_guard_witness :
    orchRun
        (some ⟨fun _ => .ok true, fun _ => .ok ⟨true, true⟩⟩)
        (some ⟨fun _ => none, fun _ => none, fun _ => none⟩)
        "mysql-primary" MemoryState.new CallLog.zero "mysql-primary" =
      ⟨⟨0, 0, 1⟩,
       [⟨.block, "refusing to upgrade primary",
         [("replica", .str (goTrimSpace "mysql-primary"))]⟩],
       MemoryState.new, { CallLog.zero with isPrimaryCalls := 1 }, none⟩ :=
  orchestrator_primary_guard
    ⟨fun _ => .ok true, fun _ => .ok ⟨true, true⟩⟩
    ⟨fun _ => none, fun _ => none, fun _ => none⟩
    "mysql-primary" MemoryState.new CallLog.zero "mysql-primary"
    (by decide) true rfl (Or.inl rfl)

/-- `detectPartialProgress` emits only Warn findings, never a Block. -/
theorem detectPartialProgress_no_block (r : String) (status : ReplicationStatus)
    (st : MemoryState) : hasBlock (detectPartialProgress r status st) = false := by
  simp only [detectPartialProgress, hasBlock, List.any_append, Bool.or_eq_false_iff]
  refine ⟨⟨?_, ?_⟩, ?_⟩ <;> (split <;> simp)

/-- A phase whose checkpoint is unset and whose action succeeds: the action
runs, the checkpoint is set, and the flow is not halted. -/
theorem orchPhase_exec (r key doneMsg skipMsg failPfx : String) (summary : Summary)
    (findings : List Finding) (st : MemoryState)
    (hck : (getBool st key).1 = false) :
    orchPhase r key none doneMsg skipMsg failPfx summary findings st =
      (applySummary summary [⟨.info, doneMsg, [("replica", .str r)]⟩],
       findings ++ [⟨.info, doneMsg, [("replica", .str r)]⟩],
       st.set key (GoVal.bool true), false) := by
  simp [orchPhase, hck, setBool]

/-- A phase whose checkpoint is already set: skipped, no state change, not
halted. -/
theorem orchPhase_skip (r key : String) (action : Option String)
    (doneMsg skipMsg failPfx : String) (summary : Summary)
    (findings : List Finding) (st : MemoryState)
    (hck : (getBool st key).1 = true) :
    orchPhase r key action doneMsg skipMsg failPfx summary findings st =
      (applySummary summary [⟨.info, skipMsg, [("replica", .str r)]⟩],
       findings ++ [⟨.info, skipMsg, [("replica", .str r)]⟩],
       st, false) := by
  simp [orchPhase, hck]

/-- A first run on a fresh store: all three phases execute and are
checkpointed, the three action counters are each incremented once, and no
error is returned. -/
theorem orchRunTrimmed_fresh (I : ReplicaInspector) (A : ReplicaActions)
    (primary : String) (st : MemoryState) (log : CallLog) (r : String)
    (hne : r ≠ "") (hip : I.isPrimary r = .ok false)
    (hguard : ¬(primary ≠ "" ∧ r = primary))
    (rs : ReplicationStatus) (hrs : I.replicationStatus r = .ok rs)
    (hstop : A.stopReplication r = none) (hupg : A.runUpgrade r = none)
    (hstart : A.startReplication r = none)
    (h1 : (getBool st (stoppedKey r)).1 = false)
    (h2 : (getBool st (upgradedKey r)).1 = false)
    (h3 : (getBool st (resumedKey r)).1 = false) :
    (orchRunTrimmed (some I) (some A) primary st log r).state =
      ((st.set (stoppedKey r) (GoVal.bool true)).set (upgradedKey r)
        (GoVal.bool true)).set (resumedKey r) (GoVal.bool true) ∧
    (orchRunTrimmed (some I) (some A) primary st log r).log =
      ⟨log.isPrimaryCalls + 1, log.statusCalls + 1, log.stopCalls + 1,
       log.upgradeCalls + 1, log.startCalls + 1⟩ ∧
    (orchRunTrimmed (some I) (some A) primary st log r).err = none := by
  have kd21 : upgradedKey r ≠ stoppedKey r := replicaKey_ne r (by decide)
  have kd31 : resumedKey r ≠ stoppedKey r := replicaKey_ne r (by decide)
  have kd32 : resumedKey r ≠ upgradedKey r := replicaKey_ne r (by decide)
  have e1 : getBool (st.set (stoppedKey r) (GoVal.bool true)) (upgradedKey r) =
      getBool st (upgradedKey r) := getBool_set_ne st _ _ _ kd21
  have e2 : getBool ((st.set (stoppedKey r) (GoVal.bool true)).set (upgradedKey r)
      (GoVal.bool true)) (resumedKey r) = getBool st (resumedKey r) := by
    rw [getBool_set_ne _ _ _ _ kd32, getBool_set_ne _ _ _ _ kd31]
  refine ⟨?_, ?_, ?_⟩ <;>
    simp [orchRunTrimmed, hne, hip, hguard, hrs, detectPartialProgress_no_block,
      orchPhase_exec, hstop, hupg, hstart, e1, e2, h1, h2, h3]

/-- A re-run on a store whose three phase checkpoints are set: all phases are
skipped, the action counters are unchanged, and no error is returned. -/
theorem orchRunTrimmed_skip (I : ReplicaInspector) (A : ReplicaActions)
    (primary : String) (st : MemoryState) (log : CallLog) (r : String)
    (hne : r ≠ "") (hip : I.isPrimary r = .ok false)
    (hguard : ¬(primary ≠ "" ∧ r = primary))
    (rs : ReplicationStatus) (hrs : I.replicationStatus r = .ok rs)
    (h1 : (getBool st (stoppedKey r)).1 = true)
    (h2 : (getBool st (upgradedKey r)).1 = true)
    (h3 : (getBool st (resumedKey r)).1 = true) :
    (orchRunTrimmed (some I) (some A) primary st log r).log =
      { log with isPrimaryCalls := log.isPrimaryCalls + 1,
                 statusCalls := log.statusCalls + 1 } ∧
    (orchRunTrimmed (some I) (some A) primary st log r).err = none := by
  constructor <;>
    simp [orchRunTrimmed, hne, hip, hguard, hrs, detectPartialProgress_no_block,
      orchPhase_skip, h1, h2, h3]

/-- C2: with a fresh checkpoint store (no phase checkpoint set), a non-primary
target, and all inspector and action calls succeeding, two sequential runs of
the orchestrator against the same store invoke each of stop/upgrade/start
exactly once in total (each phase is executed and checkpointed on the first
run and skipped on the second), and neither run returns an error. -/
theorem orchestrator_two_runs_each_action_once (I : ReplicaInspector)
    (A : ReplicaActions) (primary : String) (st : MemoryState) (replica : String)
    (hne : goTrimSpace replica ≠ "")
    (hip : I.isPrimary (goTrimSpace replica) = .ok false)
    (hguard : ¬(primary ≠ "" ∧ goTrimSpace replica = primary))
    (rs : ReplicationStatus)
    (hrs : I.replicationStatus (goTrimSpace replica) = .ok rs)
    (hstop : A.stopReplication (goTrimSpace replica) = none)
    (hupg : A.runUpgrade (goTrimSpace replica) = none)
    (hstart : A.startReplication (goTrimSpace replica) = none)
    (h1 : (getBool st (stoppedKey (goTrimSpace replica))).1 = false)
    (h2 : (getBool st (upgradedKey (goTrimSpace replica))).1 = false)
    (h3 : (getBool st (resumedKey (goTrimSpace replica))).1 = false) :
    (orchRun (some I) (some A) primary
        (orchRun (some I) (some A) primary st CallLog.zero replica).state
        (orchRun (some I) (some A) primary st CallLog.zero replica).log
        replica).log.stopCalls = 1 ∧
    (orchRun (some I) (some A) primary
        (orchRun (some I) (some A) primary st CallLog.zero replica).state
        (orchRun (some I) (some A) primary st CallLog.zero replica).log
        replica).log.upgradeCalls = 1 ∧
    (orchRun (some I) (some A) primary
        (orchRun (some I) (some A) primary st CallLog.zero replica).state
        (orchRun (some I) (some A) primary st CallLog.zero replica).log
        replica).log.startCalls = 1 ∧
    (orchRun (some I) (some A) primary st CallLog.zero replica).err = none ∧
    (orchRun (some I) (some A) primary
        (orchRun (some I) (some A) primary st CallLog.zero replica).state
        (orchRun (some I) (some A) primary st CallLog.zero replica).log
        replica).err = none := by
  simp only [orchRun]
  generalize hg : goTrimSpace replica = r at hne hip hguard hrs hstop hupg hstart h1 h2 h3 ⊢
  obtain ⟨hs1, hl1, he1⟩ := orchRunTrimmed_fresh I A primary st CallLog.zero r
    hne hip hguard rs hrs hstop hupg hstart h1 h2 h3
  have kd12 : stoppedKey r ≠ upgradedKey r := replicaKey_ne r (by decide)
  have kd13 : stoppedKey r ≠ resumedKey r := replicaKey_ne r (by decide)
  have kd23 : upgradedKey r ≠ resumedKey r := replicaKey_ne r (by decide)
  have g1 : (getBool ((orchRunTrimmed (some I) (some A) primary st CallLog.zero r).state)
      (stoppedKey r)).1 = true := by
    rw [hs1, getBool_set_ne _ _ _ _ kd13, getBool_set_ne _ _ _ _ kd12,
      getBool_set_self]
  have g2 : (getBool ((orchRunTrimmed (some I) (some A) primary st CallLog.zero r).state)
      (upgradedKey r)).1 = true := by
    rw [hs1, getBool_set_ne _ _ _ _ kd23, getBool_set_self]
  have g3 : (getBool ((orchRunTrimmed (some I) (some A) primary st CallLog.zero r).state)
      (resumedKey r)).1 = true := by
    rw [hs1, getBool_set_self]
  obtain ⟨hl2, he2⟩ := orchRunTrimmed_skip I A primary
    (orchRunTrimmed (some I) (some A) primary st CallLog.zero r).state
    (orchRunTrimmed (some I) (some A) primary st CallLog.zero r).log r
    hne hip hguard rs hrs g1 g2 g3
  refine ⟨?_, ?_, ?_, he1, he2⟩ <;> rw [hl2, hl1] <;> rfl

/-- Witness for C2 at a concrete input: replica `replica-1`, fresh in-memory
store, all calls succeeding — each action is invoked exactly once across the
two runs. -/
theorem orchestrator_two_runs_each_action_once_witness :
    (orchRun (some ⟨fun _ => .ok false, fun _ => .ok ⟨true, true⟩⟩)
        (some ⟨fun _ => none, fun _ => none, fun _ => none⟩) "mysql-primary"
        (orchRun (some ⟨fun _ => .ok false, fun _ => .ok ⟨true, true⟩⟩)
          (some ⟨fun _ => none, fun _ => none, fun _ => none⟩) "mysql-primary"
          MemoryState.new CallLog.zero "replica-1").state
        (orchRun (some ⟨fun _ => .ok false, fun _ => .ok ⟨true, true⟩⟩)
          (some ⟨fun _ => none, fun _ => none, fun _ => none⟩) "mysql-primary"
          MemoryState.new CallLog.zero "replica-1").log
        "replica-1").log.stopCalls = 1 ∧
    (orchRun (some ⟨fun _ => .ok false, fun _ => .ok ⟨true, true⟩⟩)
        (some ⟨fun _ => none, fun _ => none, fun _ => none⟩) "mysql-primary"
        (orchRun (some ⟨fun _ => .ok false, fun _ => .ok ⟨true, true⟩⟩)
          (some ⟨fun _ => none, fun _ => none, fun _ => none⟩) "mysql-primary"
          MemoryState.new CallLog.zero "replica-1").state
        (orchRun (some ⟨fun _ => .ok false, fun _ => .ok ⟨true, true⟩⟩)
          (some ⟨fun _ => none, fun _ => none, fun _ => none⟩) "mysql-primary"
          MemoryState.new CallLog.zero "replica-1").log
        "replica-1").log.upgradeCalls = 1 ∧
    (orchRun (some ⟨fun _ => .ok false, fun _ => .ok ⟨true, true⟩⟩)
        (some ⟨fun _ => none, fun _ => none, fun _ => none⟩) "mysql-primary"
        (orchRun (some ⟨fun _ => .ok false, fun _ => .ok ⟨true, true⟩⟩)
          (some ⟨fun _ => none, fun _ => none, fun _ => none⟩) "mysql-primary"
          MemoryState.new CallLog.zero "replica-1").state
        (orchRun (some ⟨fun _ => .ok false, fun _ => .ok ⟨true, true⟩⟩)
          (some ⟨fun _ => none, fun _ => none, fun _ => none⟩) "mysql-primary"
          MemoryState.new CallLog.zero "replica-1").log
        "replica-1").log.startCalls = 1 ∧
    (orchRun (some ⟨fun _ => .ok false, fun _ => .ok ⟨true, true⟩⟩)
        (some ⟨fun _ => none, fun _ => none, fun _ => none⟩) "mysql-primary"
        MemoryState.new CallLog.zero "replica-1").err = none ∧
    (orchRun (some ⟨fun _ => .ok false, fun _ => .ok ⟨true, true⟩⟩)
        (some ⟨fun _ => none, fun _ => none, fun _ => none⟩) "mysql-primary"
        (orchRun (some ⟨fun _ => .ok false, fun _ => .ok ⟨true, true⟩⟩)
          (some ⟨fun _ => none, fun _ => none, fun _ => none⟩) "mysql-primary"
          MemoryState.new CallLog.zero "replica-1").state
        (orchRun (some ⟨fun _ => .ok false, fun _ => .ok ⟨true, true⟩⟩)
          (some ⟨fun _ => none, fun _ => none, fun _ => none⟩) "mysql-primary"
          MemoryState.new CallLog.zero "replica-1").log
        "replica-1").err = none :=
  orchestrator_two_runs_each_action_once
    ⟨fun _ => .ok false, fun _ => .ok ⟨true, true⟩⟩
    ⟨fun _ => none, fun _ => none, fun _ => none⟩
    "mysql-primary" MemoryState.new "replica-1"
    (by decide) rfl (by decide) ⟨true, true⟩ rfl rfl rfl rfl rfl rfl rfl

end Migratorx
